import Mathlib

/-!
Verification of the RTAC → CIM SC-profile pipeline
(`src/plugins/rtac_plg/parser.py` and `src/plugins/rtac_plg/sc_profile.py`)
against its natural-language specification.

The embedding mirrors the Python source shallowly:
* Python `str`-or-`None` values are `Option String` (`Val`), with Python
  truthiness made explicit (`truthy`).
* Python dicts are association lists with insertion-order semantics
  (`dictSet` keeps the position of an existing key and appends new keys,
  exactly like CPython dicts).
* `xml.etree.ElementTree` elements are the inductive `Xml` (tag, attribute
  dict, `.text`, children); `find`/`findall` path queries used by the source
  (`"X"`, `".//X"`, `".//X/Y"`) are embedded as the corresponding
  child/descendant selectors in document order.
* Python exceptions that the source can actually raise on its inputs
  (`AttributeError` from calling `.lower()` on `None`, `TypeError` from
  joining a `None` into a string) are an explicit `Except PyErr` result.
-/

namespace ScadaStudio

/-- A Python string-or-`None` value (`none` is Python `None`). -/
abbrev Val := Option String

/-- Python truthiness of a string-or-`None` value: `None` and `""` are falsy. -/
def truthy : Val → Bool
  | none => false
  | some s => !(s = "")

/-- A Python dict with string keys and string-or-`None` values, as produced by
the parser for device and point records.  Keys are unique by construction
(`dictSet`); order is insertion order. -/
abbrev Rec := List (String × Val)

/-- Python `d[k] = v` on a dict: updates the value in place if the key exists
(keeping its position), otherwise appends the new binding at the end. -/
def dictSet {α β : Type} [DecidableEq α] : List (α × β) → α → β → List (α × β)
  | [], k, v => [(k, v)]
  | (k', v') :: rest, k, v =>
      if k' = k then (k, v) :: rest else (k', v') :: dictSet rest k v

/-- Python `k in d` membership test on a dict. -/
def dictHas {α β : Type} [DecidableEq α] (d : List (α × β)) (k : α) : Bool :=
  (d.find? (fun p => p.1 = k)).isSome

/-- Python `d[k]` / `d.get(k)` lookup, `none` when the key is absent. -/
def dictGet? {α β : Type} [DecidableEq α] (d : List (α × β)) (k : α) : Option β :=
  (d.find? (fun p => p.1 = k)).map (fun p => p.2)

/-- Python `d.get(k, default)` on a dict with `Val` values: the default is used
only when the key is absent (a key present with value `None` yields `None`). -/
def dictGetV {α : Type} [DecidableEq α] (d : List (α × Val)) (k : α) (dflt : Val) : Val :=
  match d.find? (fun p => p.1 = k) with
  | some p => p.2
  | none => dflt

/-- Embeds `rec.get(k, default)` with a `Val` default, on a string-keyed record. -/
def Rec.getV (r : Rec) (k : String) (dflt : Val) : Val := dictGetV r k dflt

/-- Embeds `k in rec`. -/
def Rec.hasKey (r : Rec) (k : String) : Bool := dictHas r k

/-- An `xml.etree.ElementTree` element: tag, attribute dict, `.text`
(the text before the first child, `None` when absent), and child elements. -/
inductive Xml where
  | mk (tag : String) (attrs : List (String × String)) (text : Option String)
      (children : List Xml)

def Xml.tag : Xml → String
  | .mk t _ _ _ => t

def Xml.attrs : Xml → List (String × String)
  | .mk _ a _ _ => a

def Xml.text : Xml → Option String
  | .mk _ _ t _ => t

def Xml.children : Xml → List Xml
  | .mk _ _ _ cs => cs

/-- Embeds `elem.get(k)`: attribute lookup, `None` when absent. -/
def Xml.attr (x : Xml) (k : String) : Option String := dictGet? x.attrs k

mutual

/-- All proper descendants of an element in document (pre-)order.
This is the node set traversed by an ElementTree `".//"` path step. -/
def Xml.descendants : Xml → List Xml
  | .mk _ _ _ cs => descendantsList cs
termination_by structural x => x

def descendantsList : List Xml → List Xml
  | [] => []
  | c :: cs => c :: Xml.descendants c ++ descendantsList cs
termination_by structural xs => xs

end

/-- Embeds `elem.iter()`: the element itself followed by its descendants, preorder. -/
def Xml.iterAll (x : Xml) : List Xml := x :: x.descendants

/-- Direct children with a given tag (`findall("T")`). -/
def Xml.childrenTagged (x : Xml) (t : String) : List Xml :=
  x.children.filter (fun c => c.tag = t)

/-- First direct child with a given tag (`find("T")`). -/
def Xml.findChild (x : Xml) (t : String) : Option Xml :=
  x.children.find? (fun c => c.tag = t)

/-- Embeds `findall(".//T")`: descendants with a given tag, document order. -/
def Xml.findallDesc (x : Xml) (t : String) : List Xml :=
  x.descendants.filter (fun c => c.tag = t)

/-- Embeds `find(".//T")`: first descendant with a given tag. -/
def Xml.findDesc (x : Xml) (t : String) : Option Xml :=
  (x.findallDesc t).head?

/-- Embeds `findall(".//P/C")`: for each descendant tagged `p`, its children tagged
`c`, in document order of the parents. -/
def Xml.findallDescChild (x : Xml) (p c : String) : List Xml :=
  (x.findallDesc p).flatMap (fun d => d.childrenTagged c)

/-- The Python exceptions the embedded code can raise. -/
inductive PyErr where
  | attributeError (msg : String)
  | typeError (msg : String)
deriving DecidableEq

/-- Python `str.lower()` for the strings this pipeline compares (tag names
and setting values), written over the character list so it is
kernel-reducible. -/
def pyLowerStr (s : String) : String := ⟨s.data.map Char.toLower⟩

/-- Python `str.strip()` (whitespace at both ends), kernel-reducible. -/
def pyStrip (s : String) : String :=
  ⟨((s.data.dropWhile Char.isWhitespace).reverse.dropWhile Char.isWhitespace).reverse⟩

/-- Python `str.replace(" ", "_")` (the only `replace` the source performs),
kernel-reducible. -/
def spacesToUnderscores (s : String) : String :=
  ⟨s.data.map (fun c => if c = ' ' then '_' else c)⟩

/-! ## `sc_profile.py`: namespaces, lookup tables, identifiers -/

def CIM_NS : String := "http://iec.ch/TC57/CIM100#"

def RDF_NS : String := "http://www.w3.org/1999/02/22-rdf-syntax-ns#"

def MD_NS : String := "http://iec.ch/TC57/61970-552/ModelDescription/1#"

def VER_NS : String := "http://verance.ai/CIM/SecondarySystem/1#"

def PROFILE_URI : String := "http://verance.ai/CIM/SCADAConfiguration/1"

/-- The ElementTree fully-qualified tag `"{ns}name"` (the source writes
`f"{{{NS}}}Name"`). -/
def q (ns n : String) : String := "\x7b" ++ ns ++ "\x7d" ++ n

/-- Embeds `_RTAC_TO_CIM_CLASS`, in source order. -/
def RTAC_TO_CIM_CLASS : List (String × String) :=
  [("MV", "Analog"), ("CMV", "Analog"), ("INT", "Analog"), ("INS", "Analog"),
   ("SPS", "Discrete"), ("BOOL", "Discrete"), ("DPS", "Discrete"),
   ("BCR", "Accumulator"),
   ("APC", "AnalogControl"), ("INC", "AnalogControl"), ("operAPC", "AnalogControl"),
   ("SPC", "Command"), ("DPC", "Command"), ("operSPC", "Command")]

/-- Embeds `_RTAC_TO_POINT_TYPE`, in source order. -/
def RTAC_TO_POINT_TYPE : List (String × String) :=
  [("MV", "AI"), ("CMV", "AI"), ("INT", "AI"), ("INS", "AI"),
   ("SPS", "BI"), ("BOOL", "BI"), ("DPS", "BI"),
   ("BCR", "CT"),
   ("APC", "AO"), ("INC", "AO"), ("operAPC", "AO"),
   ("SPC", "BO"), ("DPC", "BO"), ("operSPC", "BO")]

/-- Embeds `_CONTROL_TYPES`. -/
def CONTROL_TYPES : List String := ["operAPC", "operSPC", "APC", "INC", "SPC", "DPC"]

/-- Embeds `table.get(data_type, default)` where `data_type` is a `Val`
(a `None` data type is simply not a key, so the default applies). -/
def tableGet (t : List (String × String)) (k : Val) (dflt : String) : String :=
  match k with
  | none => dflt
  | some s => ((t.find? (fun p => p.1 = s)).map (fun p => p.2)).getD dflt

/-- Embeds `data_type in _CONTROL_TYPES` for a `Val` data type. -/
def isControlType : Val → Bool
  | none => false
  | some s => CONTROL_TYPES.contains s

/-- Modelled from the spec / Python standard library: `uuid.uuid5
(uuid.NAMESPACE_URL, seed)` (not part of this repository) is a fixed,
deterministic function of its seed string.  The claims under study depend
only on that determinism, never on the digest's numeric value, so the model
renders the seed itself as the digest. -/
def uuid5 (seed : String) : String := seed

/-- Embeds `_deterministic_uuid(namespace, *parts)` on plain strings:
`uuid5("|".join([namespace, *parts]))`. -/
def deterministicUuid (ns : String) (parts : List String) : String :=
  uuid5 (String.intercalate "|" (ns :: parts))

/-- Embeds `_make_mrid(prefix, *parts)` on plain strings: `"_<p>-<uuid>"`. -/
def makeMrid (p : String) (parts : List String) : String :=
  "_" ++ p ++ "-" ++ deterministicUuid p parts

/-- A part passed to `"|".join`: Python raises `TypeError` on `None`. -/
def pyStr : Val → Except PyErr String
  | some s => pure s
  | none => throw (.typeError "sequence item: expected str instance, NoneType found")

/-- Embeds `_make_mrid` when some parts may be `None` (the join raises `TypeError`). -/
def makeMridV (p : String) (parts : List Val) : Except PyErr String := do
  pure (makeMrid p (← parts.mapM pyStr))

/-! ## `sc_profile.py`: the builder state -/

/-- The `self.stats` counter dict of `SCProfileBuilder`. -/
structure Stats where
  remote_units : Nat
  analog_points : Nat
  discrete_points : Nat
  accumulator_points : Nat
  control_points : Nat
  data_flows : Nat
deriving DecidableEq

def Stats.zero : Stats := ⟨0, 0, 0, 0, 0, 0⟩

/-- The mutable state of `SCProfileBuilder`.  `remote_units` is the
insertion-ordered `map_name → Element` dict (keys are `Val` because
`dev.get("map_name", device_name)` can produce `None`). -/
structure Builder where
  substation_name : String
  eq_model_urn : Option String
  pe_model_urn : Option String
  model_urn : String
  model_description : String
  equipment_mapping : List (String × String)
  remote_units : List (Val × Xml)
  measurements : List Xml
  remote_sources : List Xml
  remote_controls : List Xml
  comm_links : List Xml
  dataflows : List Xml
  stats : Stats

/-- A child element holding only text (`SubElement` + `.text = v`). -/
def textEl (t : String) (v : Val) : Xml := .mk t [] v []

/-- A child element holding only an `rdf:resource` attribute. -/
def resEl (t : String) (r : String) : Xml := .mk t [(q RDF_NS "resource", r)] none []

/-- Embeds `if v: SubElement(...).text = v` — the optional text children the source
emits only for truthy values. -/
def optTextEl (t : String) (v : Val) : List Xml := if truthy v then [textEl t v] else []

/-- Embeds `SCProfileBuilder.__init__`.  `model_description or f"..."` uses Python
truthiness, and a missing `equipment_mapping` becomes the empty dict. -/
def SCProfileBuilder.init (substationName : String)
    (eqModelUrn peModelUrn modelDescription : Option String)
    (equipmentMapping : List (String × String)) : Builder :=
  { substation_name := substationName
    eq_model_urn := eqModelUrn
    pe_model_urn := peModelUrn
    model_urn := "urn:uuid:" ++ deterministicUuid "sc-model" [substationName]
    model_description :=
      if truthy modelDescription then modelDescription.getD "" else
        "SCADA Configuration profile for " ++ substationName
    equipment_mapping := equipmentMapping
    remote_units := []
    measurements := []
    remote_sources := []
    remote_controls := []
    comm_links := []
    dataflows := []
    stats := Stats.zero }

/-- Embeds `device_name = dev.get("name") or dev.get("device_name", "UnknownDevice")`. -/
def deviceName (dev : Rec) : Val :=
  let v1 := dev.getV "name" none
  if truthy v1 then v1 else dev.getV "device_name" (some "UnknownDevice")

/-- Embeds `map_name = dev.get("map_name", device_name)` — the key under which
`add_devices` stores the device's RemoteUnit element. -/
def deviceKey (dev : Rec) : Val := dev.getV "map_name" (deviceName dev)

/-- The `cim:RemoteUnit` element `add_devices` builds for one device record
(the body of its loop, up to storing the element).  Fails with `TypeError`
when the map name is `None` (it is joined into the mRID seed). -/
def buildRtuElem (substationName : String) (dev : Rec) : Except PyErr Xml := do
  let devName := deviceName dev
  let mapName := deviceKey dev
  let sourceFile := dev.getV "_source_file" (some "")
  let protocol := dev.getV "protocol" (some "")
  let role := dev.getV "role" (some "device")
  let manufacturer := dev.getV "manufacturer" (some "")
  let model := dev.getV "model" (some "")
  let mrid ← makeMridV "rtu" [some substationName, mapName]
  let ruType :=
    if role = some "server" then "RemoteUnitType.ControlCenter"
    else if role = some "client" then "RemoteUnitType.IED"
    else "RemoteUnitType.RTU"
  pure (Xml.mk (q CIM_NS "RemoteUnit") [(q RDF_NS "ID", mrid)] none
    ([textEl (q CIM_NS "IdentifiedObject.name") devName,
      textEl (q CIM_NS "IdentifiedObject.mRID") (some mrid),
      resEl (q CIM_NS "RemoteUnit.remoteUnitType") (CIM_NS ++ ruType)]
     ++ optTextEl (q VER_NS "RemoteUnit.sourceFile") sourceFile
     ++ optTextEl (q VER_NS "RemoteUnit.mapName") mapName
     ++ optTextEl (q VER_NS "RemoteUnit.protocol") protocol
     ++ optTextEl (q VER_NS "RemoteUnit.role") role
     ++ optTextEl (q VER_NS "RemoteUnit.manufacturer") manufacturer
     ++ optTextEl (q VER_NS "RemoteUnit.model") model))

/-- Embeds `SCProfileBuilder.add_devices`. -/
def Builder.add_devices (b : Builder) (devices : List Rec) : Except PyErr Builder :=
  devices.foldlM (fun b dev => do
    let rtu ← buildRtuElem b.substation_name dev
    pure { b with
      remote_units := dictSet b.remote_units (deviceKey dev) rtu
      stats := { b.stats with remote_units := b.stats.remote_units + 1 } }) b

/-- Embeds `SCProfileBuilder.set_rtu_identity`: stores the central node under the
private key `"__rtac__" ++ rtu_name`. -/
def Builder.set_rtu_identity (b : Builder) (rtuName : String) : Builder :=
  let mrid := makeMrid "rtac" [b.substation_name, rtuName]
  let rtu := Xml.mk (q CIM_NS "RemoteUnit") [(q RDF_NS "ID", mrid)] none
    [textEl (q CIM_NS "IdentifiedObject.name") (some rtuName),
     textEl (q CIM_NS "IdentifiedObject.mRID") (some mrid),
     resEl (q CIM_NS "RemoteUnit.remoteUnitType")
       (CIM_NS ++ "RemoteUnitType.SubstationControlSystem"),
     textEl (q VER_NS "RemoteUnit.role") (some "rtu")]
  { b with
    remote_units := dictSet b.remote_units (some ("__rtac__" ++ rtuName)) rtu
    stats := { b.stats with remote_units := b.stats.remote_units + 1 } }

/-- Embeds `SCProfileBuilder._resolve_equipment_mrid(tag_name, map_name)`. -/
def Builder.resolveEquipmentMrid (b : Builder) (tagName : String) (mapName : Val) :
    Option String :=
  match dictGet? b.equipment_mapping tagName with
  | some v => some v
  | none =>
    if truthy mapName then
      match mapName with
      | some m => dictGet? b.equipment_mapping m
      | none => none
    else none

/-- Embeds `SCProfileBuilder._resolve_rtu_mrid(map_name)`: the stored element's
`rdf:ID` attribute for a truthy map name that is a key, else the sole
remote unit's `rdf:ID` when exactly one exists, else `None`. -/
def Builder.resolveRtuMrid (b : Builder) (mapName : Val) : Option String :=
  if truthy mapName ∧ dictHas b.remote_units mapName then
    (dictGet? b.remote_units mapName).bind (fun e => e.attr (q RDF_NS "ID"))
  else if b.remote_units.length = 1 then
    b.remote_units.head?.bind (fun p => p.2.attr (q RDF_NS "ID"))
  else none

/-- The `is_control` / CIM-class dispatch at the top of the `add_points`
loop body: the element tag chosen for the point and the updated counters
(`cim_class` is `_RTAC_TO_CIM_CLASS.get(data_type, "Discrete")`). -/
def pointClassAndStats (st : Stats) (dataType : Val) : String × Stats :=
  if isControlType dataType then
    (q CIM_NS "Control", { st with control_points := st.control_points + 1 })
  else if tableGet RTAC_TO_CIM_CLASS dataType "Discrete" = "Analog" then
    (q CIM_NS "Analog", { st with analog_points := st.analog_points + 1 })
  else if tableGet RTAC_TO_CIM_CLASS dataType "Discrete" = "Accumulator" then
    (q CIM_NS "Accumulator", { st with accumulator_points := st.accumulator_points + 1 })
  else
    (q CIM_NS "Discrete", { st with discrete_points := st.discrete_points + 1 })

/-- The measurement/control element the `add_points` loop body builds for a
named point (`mrid` and the class dispatch are recomputed from the same
inputs the source computes them from). -/
def pointElem (b : Builder) (pt : Rec) (tn : String) : Xml :=
  let address := pt.getV "address" (some "")
  let dataType := pt.getV "type" (some "")
  let description := pt.getV "description" (some "")
  let mapName := pt.getV "map_name" (some "")
  let sourceFile := pt.getV "_source_file" (some "")
  let pointType := tableGet RTAC_TO_POINT_TYPE dataType "BI"
  let isCtl := isControlType dataType
  let mrid := makeMrid "pt" [b.substation_name, tn]
  let eqMrid := b.resolveEquipmentMrid tn mapName
  Xml.mk (pointClassAndStats b.stats dataType).1 [(q RDF_NS "ID", mrid)] none
    ([textEl (q CIM_NS "IdentifiedObject.name") (some tn),
      textEl (q CIM_NS "IdentifiedObject.mRID") (some mrid)]
     ++ optTextEl (q CIM_NS "IdentifiedObject.description") description
     ++ (if isCtl then [] else
          [textEl (q CIM_NS "Measurement.measurementType") (some pointType)])
     ++ (if truthy eqMrid then
          [resEl (q CIM_NS (if isCtl then "Control.PowerSystemResource"
                            else "Measurement.PowerSystemResource"))
            ("#" ++ eqMrid.getD "")]
        else [])
     ++ (if truthy address then
          [textEl (q VER_NS "SCADAPoint.dnp3Address") address] else [])
     ++ [textEl (q VER_NS "SCADAPoint.protocol") (some "DNP3"),
         textEl (q VER_NS "SCADAPoint.dataType") dataType,
         textEl (q VER_NS "SCADAPoint.tagName") (some tn)]
     ++ optTextEl (q VER_NS "SCADAPoint.sourceFile") sourceFile)

/-- The `RemoteSource`/`RemoteControl` link block at the end of the
`add_points` loop body: emits a link element referencing the point's mRID
and the resolved RemoteUnit mRID, when one resolves to a truthy value. -/
def Builder.attachLink (b : Builder) (mapName : Val) (isCtl : Bool) (mrid tn : String) :
    Builder :=
  match b.resolveRtuMrid mapName with
  | some rtuMrid =>
    if rtuMrid = "" then b
    else if isCtl then
      let rcMrid := makeMrid "rc" [b.substation_name, tn]
      let rc := Xml.mk (q CIM_NS "RemoteControl") [(q RDF_NS "ID", rcMrid)] none
        [resEl (q CIM_NS "RemoteControl.Control") ("#" ++ mrid),
         resEl (q CIM_NS "RemotePoint.RemoteUnit") ("#" ++ rtuMrid)]
      { b with remote_controls := b.remote_controls ++ [rc] }
    else
      let rsMrid := makeMrid "rs" [b.substation_name, tn]
      let rs := Xml.mk (q CIM_NS "RemoteSource") [(q RDF_NS "ID", rsMrid)] none
        [resEl (q CIM_NS "RemoteSource.MeasurementValue") ("#" ++ mrid),
         resEl (q CIM_NS "RemotePoint.RemoteUnit") ("#" ++ rtuMrid)]
      { b with remote_sources := b.remote_sources ++ [rs] }
  | none => b

/-- The body of the `add_points` loop for one point record whose tag name
has already passed the `if not tag_name: continue` guard (`tn` is that
non-empty name). -/
def Builder.addNamedPoint (b : Builder) (pt : Rec) (tn : String) : Builder :=
  let dataType := pt.getV "type" (some "")
  let mapName := pt.getV "map_name" (some "")
  let isCtl := isControlType dataType
  let mrid := makeMrid "pt" [b.substation_name, tn]
  let b1 := { b with measurements := b.measurements ++ [pointElem b pt tn]
                     stats := (pointClassAndStats b.stats dataType).2 }
  b1.attachLink mapName isCtl mrid tn

/-- One iteration of the `add_points` loop, including the
`if not tag_name: continue` guard on `pt.get("name", "")`. -/
def Builder.addPoint (b : Builder) (pt : Rec) : Builder :=
  match pt.getV "name" (some "") with
  | none => b
  | some tn => if tn = "" then b else b.addNamedPoint pt tn

/-- Embeds `SCProfileBuilder.add_points`. -/
def Builder.add_points (b : Builder) (points : List Rec) : Builder :=
  points.foldl Builder.addPoint b

/-- Embeds `SCProfileBuilder.serialize`, embedded up to the element tree it builds:
the returned bytes are `ET.indent` + `ET.tostring` (standard library, a pure
deterministic rendering) of exactly this root element, prefixed with the XML
declaration.  `now` is the value of `datetime.now(timezone.utc).strftime(...)`
read during the call — the single wall-clock input of the source. -/
def Builder.serializeRoot (b : Builder) (now : String) : Xml :=
  let header := Xml.mk (q MD_NS "FullModel") [(q RDF_NS "about", b.model_urn)] none
    ([textEl (q MD_NS "Model.scenarioTime") (some now),
      textEl (q MD_NS "Model.created") (some now),
      textEl (q MD_NS "Model.description") (some b.model_description),
      textEl (q MD_NS "Model.modelingAuthoritySet")
        (some ("http://verance.ai/SA/" ++ b.substation_name)),
      textEl (q MD_NS "Model.profile") (some PROFILE_URI)]
     ++ (if truthy b.eq_model_urn then
          [resEl (q MD_NS "Model.DependentOn") (b.eq_model_urn.getD "")] else [])
     ++ (if truthy b.pe_model_urn then
          [resEl (q MD_NS "Model.DependentOn") (b.pe_model_urn.getD "")] else []))
  Xml.mk (q RDF_NS "RDF") [] none
    (header :: (b.remote_units.map (fun p => p.2) ++ b.measurements
      ++ b.remote_sources ++ b.remote_controls ++ b.comm_links ++ b.dataflows))

/-- The dict returned by `SCProfileBuilder.get_stats`. -/
structure GenStats where
  remote_units : Nat
  analog_points : Nat
  discrete_points : Nat
  accumulator_points : Nat
  control_points : Nat
  data_flows : Nat
  total_points : Nat
  substation : String
  model_urn : String
deriving DecidableEq

/-- Embeds `SCProfileBuilder.get_stats`. -/
def Builder.get_stats (b : Builder) : GenStats :=
  { remote_units := b.stats.remote_units
    analog_points := b.stats.analog_points
    discrete_points := b.stats.discrete_points
    accumulator_points := b.stats.accumulator_points
    control_points := b.stats.control_points
    data_flows := b.stats.data_flows
    total_points := b.stats.analog_points + b.stats.discrete_points
      + b.stats.accumulator_points + b.stats.control_points
    substation := b.substation_name
    model_urn := b.model_urn }

/-- Embeds `generate_sc_profile`, with the serialized document kept at tree level
(see `Builder.serializeRoot`) and the clock reading passed explicitly. -/
def generate_sc_profile (devices points : List Rec) (substationName : String)
    (rtuName eqModelUrn peModelUrn : Option String)
    (equipmentMapping : List (String × String)) (now : String) :
    Except PyErr (Xml × GenStats) := do
  let b := SCProfileBuilder.init substationName eqModelUrn peModelUrn none
    equipmentMapping
  let b := match rtuName with
    | some r => if r = "" then b else b.set_rtu_identity r
    | none => b
  let b ← b.add_devices devices
  let b := b.add_points points
  pure (b.serializeRoot now, b.get_stats)

/-! ## `parser.py` -/

/-- Embeds `POINT_TAGS` — the case-sensitive generic point-tag vocabulary. -/
def POINT_TAGS : List String :=
  ["point", "Point", "Tag", "tag", "DataPoint", "datapoint", "DevicePoint", "devicepoint"]

/-- Embeds `_extract_point(elem)`: harvest known child-element names into normalized
fields; unrecognized child tags are kept verbatim (original tag, not
lower-cased).  `(child.text or "").strip()` always yields a string. -/
def extract_point (elem : Xml) : Rec :=
  elem.children.foldl (fun data child =>
    let tg := pyLowerStr child.tag
    let txt : Val := some (pyStrip (child.text.getD ""))
    if ["name", "id", "tag", "tagname"].contains tg then dictSet data "name" txt
    else if ["address", "addr", "ioaddress"].contains tg then dictSet data "address" txt
    else if ["type", "pointtype", "datatype"].contains tg then dictSet data "type" txt
    else if ["units", "unit", "uom"].contains tg then dictSet data "units" txt
    else if ["description", "desc"].contains tg then dictSet data "description" txt
    else dictSet data child.tag txt) []

/-- The settings dict of one tag-table row: the comprehension
`{s.find("Column").text: s.find("Value").text for s in row.findall("Setting")
if ...}` — keys are `Column` texts (possibly `None`), values are `Value`
texts (possibly `None`), later duplicates overwrite in place. -/
def rowSettings (row : Xml) : List (Option String × Val) :=
  (row.childrenTagged "Setting").foldl (fun d s =>
    match s.findChild "Column", s.findChild "Value" with
    | some col, some v => dictSet d col.text v.text
    | _, _ => d) []

/-- Python `x.lower()` on a string-or-`None` value: `AttributeError` on `None`. -/
def pyLower : Val → Except PyErr String
  | none => throw (.attributeError "NoneType object has no attribute lower")
  | some s => pure (pyLowerStr s)

/-- The body of the `_parse_rtac_taglist` row loop: either skips the row
(`Enable` not `"true"`) or builds one point record.  Raises exactly where
the source does: `.lower()` on a `None` `Enable` value or a `None` column
name. -/
def parseTaglistRow (filename mapName : String) (row : Xml) :
    Except PyErr (Option Rec) := do
  let settings := rowSettings row
  let en ← pyLower (dictGetV settings (some "Enable") (some ""))
  if en ≠ "true" then pure none
  else do
    let pd : Rec := []
    let pd := match dictGet? settings (some "Tag Name") with
      | some v => dictSet pd "name" v
      | none => pd
    let pd := match dictGet? settings (some "Point Number") with
      | some v => dictSet pd "address" v
      | none => pd
    let pd := match dictGet? settings (some "Tag Type") with
      | some v => dictSet pd "type" v
      | none => pd
    let pd := match dictGet? settings (some "Comment") with
      | some v => if truthy v then dictSet pd "description" v else pd
      | none => pd
    let pd := if mapName ≠ "" then dictSet pd "map_name" (some mapName) else pd
    let skip := ["tag_name", "point_number", "tag_type", "comment", "enable"]
    let pd ← settings.foldlM (fun pd kv => do
      let colS ← pyLower kv.1
      let key := spacesToUnderscores colS
      if skip.contains key then pure pd else pure (dictSet pd key kv.2)) pd
    if pd.isEmpty then pure none
    else pure (some (dictSet pd "_source_file" (some filename)))

/-- Embeds `_parse_rtac_taglist(root, filename, map_name)`. -/
def parse_rtac_taglist (root : Xml) (filename : String) (mapName : String) :
    Except PyErr (List Rec) :=
  (root.findallDescChild "SettingPage" "Row").foldlM (fun pts row => do
    match ← parseTaglistRow filename mapName row with
    | some pd => pure (pts ++ [pd])
    | none => pure pts) []

/-- The `Map Name` probe of one `Connection` row: `some m` when the row's
first two `Setting` children match the `Setting`/`Map Name` pattern and a
second `Value` element exists (the source then `break`s with
`second_val.text or ""`), `none` when the loop continues past this row. -/
def rowMapName (row : Xml) : Option String :=
  match row.childrenTagged "Setting" with
  | s0 :: s1 :: _ =>
    match s0.findChild "Column", s0.findChild "Value" with
    | some c, some v =>
      if c.text = some "Setting" ∧ v.text = some "Map Name" then
        match s1.findChild "Value" with
        | some v2 => some (v2.text.getD "")
        | none => none
      else none
    | _, _ => none
  | _ => none

/-- The `for row in connection.findall(".//Row")` search with `break`:
the first row that yields a map name wins; `""` when none does. -/
def findMapName : List Xml → String
  | [] => ""
  | r :: rs =>
    match rowMapName r with
    | some m => m
    | none => findMapName rs

/-- Embeds `_parse_device(root, filename)`. -/
def parse_device (root : Xml) (filename : String) :
    Except PyErr (List Rec × List Rec) := do
  match root.findDesc "Device" with
  | none => pure ([], [])
  | some device =>
    let devName : Val := match device.findDesc "Name" with
      | some el => el.text
      | none => some filename
    let connOk := match device.findDesc "Connection" with
      | some conn =>
        match conn.findChild "Protocol" with
        | some p => if p.text = some "DNPServer" then some conn else none
        | none => none
      | none => none
    match connOk with
    | none => pure ([], [])
    | some conn => do
      let mapName := findMapName (conn.findallDesc "Row")
      let devs : List Rec :=
        if mapName ≠ "" then
          [[("name", devName), ("map_name", some mapName),
            ("_source_file", some filename)]]
        else []
      let ptss ← (device.findallDesc "TagList").mapM
        (fun tl => parse_rtac_taglist tl filename mapName)
      pure (devs, ptss.flatten)

/-- One iteration of the generic-extraction loop of `parse_rtac_xml_root`. -/
def genericPoint (filename : String) (elem : Xml) : Rec :=
  let p := extract_point elem
  let p :=
    if p.hasKey "name" then p
    else
      let fromAttrs :=
        match elem.attr "name" with
        | some s => if s ≠ "" then s else (elem.attr "id").getD ""
        | none => (elem.attr "id").getD ""
      dictSet p "name" (some fromAttrs)
  dictSet p "_source_file" (some filename)

/-- Embeds `parse_rtac_xml_root(root, filename)`: Device shape first, then TagList
shape, then generic point extraction. -/
def parse_rtac_xml_root (root : Xml) (filename : String) :
    Except PyErr (List Rec × List Rec) := do
  match root.findDesc "Device" with
  | some _ => parse_device root filename
  | none =>
    let taglists := root.findallDesc "TagList"
    if taglists.isEmpty then
      pure ([], (root.iterAll.filter (fun e => POINT_TAGS.contains e.tag)).map
        (genericPoint filename))
    else do
      let ptss ← taglists.mapM (fun tl => parse_rtac_taglist tl filename "")
      pure ([], ptss.flatten)

/-- Embeds `generate_sc_profile_from_bytes` after the standard library's
`ET.fromstring` (which raises `MalformedInput` on ill-formed bytes and is
not part of this repository): the pipeline on an already-parsed tree. -/
def generate_sc_profile_from_root (root : Xml) (filename substationName : String)
    (eqModelUrn : Option String) (equipmentMapping : List (String × String))
    (now : String) : Except PyErr (Xml × GenStats) := do
  let dp ← parse_rtac_xml_root root filename
  generate_sc_profile dp.1 dp.2 substationName none eqModelUrn none
    equipmentMapping now

/-! ## Helpers for stating properties of concrete runs -/

/-- Number of root children with a given tag in a serialized document. -/
def countTag (x : Xml) (t : String) : Nat :=
  (x.children.filter (fun c => c.tag = t)).length

/-- First root child with a given tag in a serialized document. -/
def findTag (x : Xml) (t : String) : Option Xml :=
  x.children.find? (fun c => c.tag = t)

/-- Text of the first child with a given tag. -/
def childText (x : Xml) (t : String) : Option String := (x.findChild t).bind Xml.text

/-- Embeds `rdf:resource` attribute of the first child with a given tag. -/
def childRes (x : Xml) (t : String) : Option String :=
  (x.findChild t).bind (fun c => c.attr (q RDF_NS "resource"))

/-- Element constructor helper for concrete input documents. -/
def xEl (t : String) (cs : List Xml) : Xml := .mk t [] none cs

/-- Text-leaf constructor helper for concrete input documents. -/
def xTx (t s : String) : Xml := .mk t [] (some s) []

/-- An RTAC `<Setting><Column>c</Column><Value>v</Value></Setting>` pair. -/
def xSetting (c v : String) : Xml := xEl "Setting" [xTx "Column" c, xTx "Value" v]

/-! ## C2: the single-DNP-device scenario -/

/-- The C2 input document: one `Device` with a `DNPServer` connection whose
settings rows configure `Map Name` = `MAP1`, and one enabled tag-table row
`Tag Name=BRK1_STATUS, Point Number=101, Tag Type=SPS`. -/
def c2root : Xml := xEl "Root" [
  xEl "Device" [
    xTx "Name" "DEV1",
    xEl "Connection" [
      xTx "Protocol" "DNPServer",
      xEl "Settings" [xEl "Row" [xSetting "Setting" "Map Name", xSetting "Value" "MAP1"]]
    ],
    xEl "TagList" [xEl "SettingPage" [xEl "Row" [
      xSetting "Enable" "true", xSetting "Tag Name" "BRK1_STATUS",
      xSetting "Point Number" "101", xSetting "Tag Type" "SPS"]]]
  ]
]

/-- The C2 pipeline run (clock reading `ts` passed explicitly). -/
def c2run (ts : String) : Except PyErr (Xml × GenStats) :=
  generate_sc_profile_from_root c2root "one.xml" "SUB" none [] ts

/-- Root-child count of a successful run, `none` on failure. -/
def okCount (r : Except PyErr (Xml × GenStats)) (t : String) : Option Nat :=
  r.toOption.map (fun p => countTag p.1 t)

/-- First root child with a given tag of a successful run. -/
def okElem (r : Except PyErr (Xml × GenStats)) (t : String) : Option Xml :=
  r.toOption.bind (fun p => findTag p.1 t)

/-- Stats of a successful run. -/
def okStats (r : Except PyErr (Xml × GenStats)) : Option GenStats :=
  r.toOption.map (fun p => p.2)

/-- C2: on the single-DNP-device document, the pipeline emits exactly one
`cim:RemoteUnit` (typed `RemoteUnitType.RTU`), exactly one `cim:Discrete`
named `BRK1_STATUS` carrying `dnp3Address` `101` (and no Analog /
Accumulator / Control), exactly one `cim:RemoteSource` (and no
RemoteControl) whose two references point at the Discrete's and the
RemoteUnit's identifiers, and the stats report
`remote_units = 1`, `discrete_points = 1`, `total_points = 1`. -/
theorem C2_single_dnp_device_scenario (ts : String) :
    okCount (c2run ts) (q CIM_NS "RemoteUnit") = some 1
    ∧ okCount (c2run ts) (q CIM_NS "Discrete") = some 1
    ∧ okCount (c2run ts) (q CIM_NS "Analog") = some 0
    ∧ okCount (c2run ts) (q CIM_NS "Accumulator") = some 0
    ∧ okCount (c2run ts) (q CIM_NS "Control") = some 0
    ∧ okCount (c2run ts) (q CIM_NS "RemoteSource") = some 1
    ∧ okCount (c2run ts) (q CIM_NS "RemoteControl") = some 0
    ∧ ((okElem (c2run ts) (q CIM_NS "RemoteUnit")).bind
        (fun u => childRes u (q CIM_NS "RemoteUnit.remoteUnitType")))
      = some (CIM_NS ++ "RemoteUnitType.RTU")
    ∧ ((okElem (c2run ts) (q CIM_NS "Discrete")).bind
        (fun d => childText d (q CIM_NS "IdentifiedObject.name")))
      = some "BRK1_STATUS"
    ∧ ((okElem (c2run ts) (q CIM_NS "Discrete")).bind
        (fun d => childText d (q VER_NS "SCADAPoint.dnp3Address")))
      = some "101"
    ∧ ((okElem (c2run ts) (q CIM_NS "RemoteSource")).bind
        (fun s => childRes s (q CIM_NS "RemoteSource.MeasurementValue")))
      = ((okElem (c2run ts) (q CIM_NS "Discrete")).bind
          (fun d => d.attr (q RDF_NS "ID"))).map (fun i => "#" ++ i)
    ∧ ((okElem (c2run ts) (q CIM_NS "RemoteSource")).bind
        (fun s => childRes s (q CIM_NS "RemotePoint.RemoteUnit")))
      = ((okElem (c2run ts) (q CIM_NS "RemoteUnit")).bind
          (fun u => u.attr (q RDF_NS "ID"))).map (fun i => "#" ++ i)
    ∧ (okStats (c2run ts)).map
        (fun st => (st.remote_units, st.discrete_points, st.total_points))
      = some (1, 1, 1) :=
  ⟨rfl, rfl, rfl, rfl, rfl, rfl, rfl, rfl, rfl, rfl, rfl, rfl, rfl⟩

/-! ## C7: well-formed input on which the parser raises -/

/-- A well-formed document whose single tag-table row has an `Enable`
setting with an empty `<Value/>` element (ElementTree gives it text `None`). -/
def c7root : Xml := xEl "Config" [xEl "TagList" [xEl "SettingPage" [xEl "Row" [
  xEl "Setting" [xTx "Column" "Enable", xEl "Value" []]]]]]

/-- C7: on the well-formed document `c7root` the parser does not degrade
gracefully — `settings.get("Enable", "").lower()` is called on the `None`
text of the empty `Value` element and raises `AttributeError`, an error
distinct from the malformed-XML failure. -/
theorem C7_wellformed_input_raises :
    parse_rtac_xml_root c7root "f.xml"
      = .error (.attributeError "NoneType object has no attribute lower") := rfl

/-! ## C6: the parser does not discard nameless records -/

/-- A document whose single enabled tag-table row has no `Tag Name` column,
only an unrecognized `Foo` column. -/
def c6root : Xml := xEl "Config" [xEl "TagList" [xEl "SettingPage" [xEl "Row" [
  xSetting "Enable" "true", xSetting "Foo" "bar"]]]]

/-- C6 counterexample: parsing `c6root` returns exactly one point record,
and that record has no `name` key at all (its effective name is empty) —
the parser did not discard it. -/
theorem C6_counterexample :
    (parse_rtac_xml_root c6root "f.xml").toOption.map
      (fun dp => dp.2.map (fun r => (r, r.hasKey "name", truthy (r.getV "name" (some "")))))
    = some [([("foo", some "bar"), ("_source_file", some "f.xml")], false, false)] := rfl

/-- C6 amended: records without a (truthy) name are not discarded by the
parser but by the builder — `add_points` leaves the builder unchanged for
any point record whose name is missing, `None` or empty. -/
theorem C6_amended_builder_discards_nameless (b : Builder) (pt : Rec)
    (h : truthy (pt.getV "name" (some "")) = false) :
    b.add_points [pt] = b := by
  show b.addPoint pt = b
  unfold Builder.addPoint
  cases hv : pt.getV "name" (some "") with
  | none => rfl
  | some tn =>
    rw [hv] at h
    have h' : tn = "" := by simpa [truthy] using h
    subst h'
    rfl

/-- Witness for `C6_amended_builder_discards_nameless` at a concrete
nameless record. -/
theorem C6_amended_builder_discards_nameless_witness :
    (SCProfileBuilder.init "S" none none none []).add_points [[("type", some "MV")]]
      = SCProfileBuilder.init "S" none none none [] :=
  C6_amended_builder_discards_nameless _ _ rfl

/-! ## C5: lookup is exact-case and unknown codes get fixed defaults -/

/-- C5 counterexample: the unknown code `"FOO"` does not pass through as the
emitted point type — the element gets the fixed default `"BI"` (and class
Discrete); moreover the lowercase spelling `"mv"` misses the tables (lookup
is case-sensitive, not case-insensitive), and the table keys themselves are
not uppercased (`"operAPC"` is a key as spelled). -/
theorem C5_counterexample :
    ((SCProfileBuilder.init "S" none none none []).add_points
        [[("name", some "P"), ("type", some "FOO")]]).measurements.map
      (fun e => (e.tag, childText e (q CIM_NS "Measurement.measurementType")))
      = [(q CIM_NS "Discrete", some "BI")]
    ∧ tableGet RTAC_TO_POINT_TYPE (some "mv") "BI" = "BI"
    ∧ tableGet RTAC_TO_CIM_CLASS (some "mv") "Discrete" = "Discrete"
    ∧ (RTAC_TO_POINT_TYPE.find? (fun p => p.1 = "operAPC")).isSome = true
    ∧ (RTAC_TO_POINT_TYPE.find? (fun p => p.1 = "OPERAPC")).isSome = false :=
  ⟨rfl, rfl, rfl, rfl, rfl⟩

/-- C5 amended: the lookup tables are keyed by the exact-case vendor codes
(the control codes `operAPC`/`operSPC` are mixed-case, so lookup is
case-sensitive), and any data-type code absent from the tables yields the
fixed defaults — point type `"BI"` and CIM class `"Discrete"` — so the
measurement emitted for an unknown non-control code is a Discrete whose
measurementType is `"BI"`, not the original code. -/
theorem C5_amended_fixed_default (s : String)
    (hmiss : RTAC_TO_POINT_TYPE.find? (fun p => p.1 = s) = none)
    (hmissC : RTAC_TO_CIM_CLASS.find? (fun p => p.1 = s) = none)
    (hctl : s ∉ CONTROL_TYPES) :
    tableGet RTAC_TO_POINT_TYPE (some s) "BI" = "BI"
    ∧ tableGet RTAC_TO_CIM_CLASS (some s) "Discrete" = "Discrete"
    ∧ ((SCProfileBuilder.init "S" none none none []).add_points
        [[("name", some "P"), ("type", some s)]]).measurements.map
        (fun e => (e.tag, childText e (q CIM_NS "Measurement.measurementType")))
      = [(q CIM_NS "Discrete", some "BI")] := by
  have hpt : tableGet RTAC_TO_POINT_TYPE (some s) "BI" = "BI" := by
    simp [tableGet, hmiss]
  have hcc : tableGet RTAC_TO_CIM_CLASS (some s) "Discrete" = "Discrete" := by
    simp [tableGet, hmissC]
  have hic : isControlType (some s) = false := by
    simp [isControlType, hctl]
  refine ⟨hpt, hcc, ?_⟩
  show ((SCProfileBuilder.init "S" none none none []).addNamedPoint
    [("name", some "P"), ("type", some s)] "P").measurements.map
    (fun e => (e.tag, childText e (q CIM_NS "Measurement.measurementType")))
    = [(q CIM_NS "Discrete", some "BI")]
  have hgType : Rec.getV [("name", some "P"), ("type", some s)] "type" (some "")
      = some s := rfl
  unfold Builder.addNamedPoint pointElem pointClassAndStats Builder.attachLink
  simp only [hgType, hic, hpt, hcc]
  rfl

/-- Witness for `C5_amended_fixed_default` at the unknown code `"FOO"`. -/
theorem C5_amended_fixed_default_witness :
    (RTAC_TO_POINT_TYPE.find? (fun p => p.1 = "FOO") = none
      ∧ RTAC_TO_CIM_CLASS.find? (fun p => p.1 = "FOO") = none
      ∧ "FOO" ∉ CONTROL_TYPES)
    ∧ (tableGet RTAC_TO_POINT_TYPE (some "FOO") "BI" = "BI"
      ∧ tableGet RTAC_TO_CIM_CLASS (some "FOO") "Discrete" = "Discrete"
      ∧ ((SCProfileBuilder.init "S" none none none []).add_points
          [[("name", some "P"), ("type", some "FOO")]]).measurements.map
          (fun e => (e.tag, childText e (q CIM_NS "Measurement.measurementType")))
        = [(q CIM_NS "Discrete", some "BI")]) :=
  ⟨⟨rfl, rfl, by decide⟩, C5_amended_fixed_default "FOO" rfl rfl (by decide)⟩

/-! ## C1: determinism of the pipeline -/

/-- A minimal well-formed input document (no devices, no points). -/
def c1root : Xml := xEl "Root" []

/-- The `md:Model.scenarioTime` text of a successful run: the first child of
the first root child (the FullModel header's first child). -/
def headTimeText (r : Except PyErr (Xml × GenStats)) : Option String :=
  match r with
  | .ok p => (p.1.children.head?.bind (fun h => h.children.head?)).bind Xml.text
  | .error _ => none

/-- C1 counterexample: the same input run at two different clock readings
produces different serialized documents — the header's `scenarioTime` (and
`created`) text is the wall-clock time of the `serialize` call, so repeated
runs on unchanged input are not byte-identical. -/
theorem C1_counterexample :
    generate_sc_profile_from_root c1root "f.xml" "SUB" none []
        "2024-01-01T00:00:00Z"
      ≠ generate_sc_profile_from_root c1root "f.xml" "SUB" none []
        "2024-01-01T00:00:01Z" := by
  intro h
  have h2 := congrArg headTimeText h
  rw [show headTimeText (generate_sc_profile_from_root c1root "f.xml" "SUB" none []
        "2024-01-01T00:00:00Z") = some "2024-01-01T00:00:00Z" from rfl,
      show headTimeText (generate_sc_profile_from_root c1root "f.xml" "SUB" none []
        "2024-01-01T00:00:01Z") = some "2024-01-01T00:00:01Z" from rfl] at h2
  simp at h2

/-- Erase the text of a header child when it is one of the two wall-clock
timestamp fields (`md:Model.scenarioTime`, `md:Model.created`). -/
def scrubTimeEl (c : Xml) : Xml :=
  if c.tag = q MD_NS "Model.scenarioTime" ∨ c.tag = q MD_NS "Model.created" then
    Xml.mk c.tag c.attrs none c.children
  else c

/-- Erase the two timestamp texts of a serialized document (they live in the
grandchildren of the root, inside the FullModel header). -/
def scrubTimes (x : Xml) : Xml :=
  Xml.mk x.tag x.attrs x.text (x.children.map (fun h =>
    Xml.mk h.tag h.attrs h.text (h.children.map scrubTimeEl)))

/-- Erase the timestamp texts of a pipeline result. -/
def scrubRun (r : Except PyErr (Xml × GenStats)) : Except PyErr (Xml × GenStats) :=
  r.map (fun p => (scrubTimes p.1, p.2))

/-- With the two timestamp texts erased, serialization does not depend on the
clock reading at all. -/
theorem scrubTimes_serializeRoot (b : Builder) (ts₁ ts₂ : String) :
    scrubTimes (b.serializeRoot ts₁) = scrubTimes (b.serializeRoot ts₂) := rfl

/-- C1 amended: the pipeline is deterministic in everything except the two
header timestamps — for any input tree, filename, substation name, model
URN and equipment mapping, runs at two different clock readings agree once
the `scenarioTime`/`created` texts are erased (in particular every emitted
identifier, element and counter is a pure function of the input), and a run
is byte-identical to another run only at the same clock reading. -/
theorem C1_amended_deterministic_up_to_clock (root : Xml)
    (filename substationName : String) (eqModelUrn : Option String)
    (equipmentMapping : List (String × String)) (ts₁ ts₂ : String) :
    scrubRun (generate_sc_profile_from_root root filename substationName
        eqModelUrn equipmentMapping ts₁)
      = scrubRun (generate_sc_profile_from_root root filename substationName
        eqModelUrn equipmentMapping ts₂) := by
  unfold generate_sc_profile_from_root generate_sc_profile
  cases hp : parse_rtac_xml_root root filename with
  | error e => rfl
  | ok dp =>
    cases hd : Builder.add_devices (SCProfileBuilder.init substationName
        eqModelUrn none none equipmentMapping) dp.1 with
    | error e =>
      simp only [scrubRun, bind, Except.bind, Functor.map, Except.map, hd]
    | ok b =>
      simp only [scrubRun, bind, Except.bind, Functor.map, Except.map, hd]
      exact congrArg (fun x => Except.ok (x, (b.add_points dp.2).get_stats))
        (scrubTimes_serializeRoot (b.add_points dp.2) ts₁ ts₂)

/-! ## C8: round-trip counting -/

/-- The number of point records whose name is truthy (present, non-`None`,
non-empty) — exactly the records that pass the `if not tag_name: continue`
guard. -/
def countNamed (pts : List Rec) : Nat :=
  (pts.filter (fun pt => truthy (Rec.getV pt "name" (some "")))).length

/-- The sum of the four per-class point counters of a builder. -/
def statsTotal (b : Builder) : Nat :=
  b.stats.analog_points + b.stats.discrete_points
    + b.stats.accumulator_points + b.stats.control_points

theorem attachLink_stats (b : Builder) (mn : Val) (c : Bool) (mrid tn : String) :
    (b.attachLink mn c mrid tn).stats = b.stats := by
  unfold Builder.attachLink
  split <;> (try split) <;> (try split) <;> rfl

theorem statsSum_pointClassAndStats (st : Stats) (dt : Val) :
    (pointClassAndStats st dt).2.analog_points
      + (pointClassAndStats st dt).2.discrete_points
      + (pointClassAndStats st dt).2.accumulator_points
      + (pointClassAndStats st dt).2.control_points
    = st.analog_points + st.discrete_points
      + st.accumulator_points + st.control_points + 1 := by
  unfold pointClassAndStats
  split <;> (try split) <;> (try split) <;> simp <;> omega

theorem statsTotal_addNamedPoint (b : Builder) (pt : Rec) (tn : String) :
    statsTotal (b.addNamedPoint pt tn) = statsTotal b + 1 := by
  unfold Builder.addNamedPoint statsTotal
  rw [attachLink_stats]
  exact statsSum_pointClassAndStats b.stats (pt.getV "type" (some ""))

theorem statsTotal_addPoint (b : Builder) (pt : Rec) :
    statsTotal (b.addPoint pt)
      = statsTotal b + (if truthy (Rec.getV pt "name" (some "")) then 1 else 0) := by
  unfold Builder.addPoint
  cases hv : Rec.getV pt "name" (some "") with
  | none => simp [truthy]
  | some tn =>
    by_cases h : tn = ""
    · subst h; simp [truthy]
    · simp [truthy, h, statsTotal_addNamedPoint]

theorem statsTotal_add_points (b : Builder) (pts : List Rec) :
    statsTotal (b.add_points pts) = statsTotal b + countNamed pts := by
  induction pts generalizing b with
  | nil => simp [Builder.add_points, countNamed]
  | cons pt rest ih =>
    show statsTotal ((b.addPoint pt).add_points rest) = _
    rw [ih, statsTotal_addPoint]
    have hc : countNamed (pt :: rest)
        = (if truthy (Rec.getV pt "name" (some "")) then 1 else 0) + countNamed rest := by
      by_cases h : truthy (Rec.getV pt "name" (some "")) <;>
        simp [countNamed, List.filter_cons, h] <;> omega
    rw [hc]
    omega

/-- One step of `add_devices`: build the RemoteUnit element for the first
device, store it under its key, bump the counter, and continue. -/
theorem add_devices_cons (b0 : Builder) (dev : Rec) (rest : List Rec) :
    b0.add_devices (dev :: rest)
      = (buildRtuElem b0.substation_name dev).bind (fun rtu =>
          Builder.add_devices { b0 with
            remote_units := dictSet b0.remote_units (deviceKey dev) rtu
            stats := { b0.stats with remote_units := b0.stats.remote_units + 1 } }
            rest) := by
  cases hb : buildRtuElem b0.substation_name dev <;>
    simp only [Builder.add_devices, List.foldlM, hb, bind, Except.bind, pure] <;> rfl

theorem statsTotal_add_devices (devs : List Rec) (b0 b : Builder)
    (h : b0.add_devices devs = .ok b) : statsTotal b = statsTotal b0 := by
  induction devs generalizing b0 with
  | nil =>
    simp only [Builder.add_devices, List.foldlM] at h
    cases h
    rfl
  | cons dev rest ih =>
    rw [add_devices_cons] at h
    cases hb : buildRtuElem b0.substation_name dev with
    | error e => rw [hb] at h; simp [Except.bind] at h
    | ok rtu =>
      rw [hb] at h
      replace h : Builder.add_devices { b0 with
          remote_units := dictSet b0.remote_units (deviceKey dev) rtu
          stats := { b0.stats with remote_units := b0.stats.remote_units + 1 } }
          rest = .ok b := h
      rw [ih _ h]
      rfl

/-- C8: (a) `add_points` increases `total_points` by exactly the number of
input records with a truthy name; (b) on a fresh builder (after `__init__`
and `add_devices`, which never touch the point counters) the reported
`total_points` equals that count; (c) `get_stats` always reports
`total_points` as the sum of the four per-class counters. -/
theorem C8_round_trip_counting :
    (∀ (b : Builder) (pts : List Rec),
      (b.add_points pts).get_stats.total_points
        = b.get_stats.total_points + countNamed pts)
    ∧ (∀ (substationName : String) (eqU peU mdesc : Option String)
        (emap : List (String × String)) (devs pts : List Rec) (b : Builder),
        (SCProfileBuilder.init substationName eqU peU mdesc emap).add_devices devs
            = .ok b →
        (b.add_points pts).get_stats.total_points = countNamed pts)
    ∧ (∀ (b : Builder),
        b.get_stats.total_points
          = b.get_stats.analog_points + b.get_stats.discrete_points
            + b.get_stats.accumulator_points + b.get_stats.control_points) := by
  have key : ∀ (b : Builder) (pts : List Rec),
      (b.add_points pts).get_stats.total_points
        = b.get_stats.total_points + countNamed pts := by
    intro b pts
    have h1 : ∀ (c : Builder), c.get_stats.total_points = statsTotal c := by
      intro c; rfl
    rw [h1, h1, statsTotal_add_points]
  refine ⟨key, ?_, fun b => rfl⟩
  intro substationName eqU peU mdesc emap devs pts b h
  rw [key]
  have h0 : b.get_stats.total_points = statsTotal b := rfl
  rw [h0, statsTotal_add_devices devs _ b h]
  have h1 : statsTotal (SCProfileBuilder.init substationName eqU peU mdesc emap) = 0 := rfl
  rw [h1]
  omega

/-- The builder state after adding one device to a fresh builder (used as
concrete input by the C8 witness). -/
def c8wb : Builder :=
  ((SCProfileBuilder.init "S" none none none []).add_devices
    [[("map_name", some "M")]]).toOption.getD (SCProfileBuilder.init "S" none none none [])

/-- Three concrete point records, one of them nameless. -/
def c8pts : List Rec :=
  [[("name", some "A"), ("type", some "MV")],
   [("type", some "SPS")],
   [("name", some "B"), ("type", some "SPC")]]

/-- Witness for `C8_round_trip_counting`: a fresh builder with one device
and three points (one of them nameless) reports `total_points = 2`. -/
theorem C8_round_trip_counting_witness :
    ((SCProfileBuilder.init "S" none none none []).add_devices
        [[("map_name", some "M")]] = .ok c8wb)
    ∧ (c8wb.add_points c8pts).get_stats.total_points = countNamed c8pts
    ∧ countNamed c8pts = 2 :=
  ⟨rfl, C8_round_trip_counting.2.1 "S" none none none []
    [[("map_name", some "M")]] c8pts c8wb rfl, rfl⟩

/-! ## C4: class mapping -/

theorem pointElem_tag (b : Builder) (pt : Rec) (tn : String) :
    (pointElem b pt tn).tag
      = (pointClassAndStats b.stats (pt.getV "type" (some ""))).1 := rfl

/-- For a non-control data type, the emitted element carries a
`Measurement.measurementType` child holding the point-type lookup. -/
theorem pointElem_mt (b : Builder) (pt : Rec) (tn : String)
    (h : isControlType (pt.getV "type" (some "")) = false) :
    childText (pointElem b pt tn) (q CIM_NS "Measurement.measurementType")
      = some (tableGet RTAC_TO_POINT_TYPE (pt.getV "type" (some "")) "BI") := by
  unfold pointElem childText Xml.findChild
  by_cases hd : truthy (pt.getV "description" (some "")) <;>
    simp [h, hd, optTextEl, textEl, Xml.children, Xml.tag, Xml.text,
      List.find?_cons, List.find?_append, q, CIM_NS, RDF_NS, VER_NS]

/-- For a control data type, no `Measurement.measurementType` child is
emitted at all. -/
theorem pointElem_mt_none (b : Builder) (pt : Rec) (tn : String)
    (h : isControlType (pt.getV "type" (some "")) = true) :
    (pointElem b pt tn).findChild (q CIM_NS "Measurement.measurementType") = none := by
  unfold pointElem Xml.findChild
  by_cases hd : truthy (pt.getV "description" (some "")) <;>
  by_cases he : truthy (b.resolveEquipmentMrid tn (pt.getV "map_name" (some ""))) <;>
  by_cases ha : truthy (pt.getV "address" (some "")) <;>
  by_cases hs : truthy (pt.getV "_source_file" (some "")) <;>
    simp [h, hd, he, ha, hs, optTextEl, textEl, resEl, Xml.children, Xml.tag,
      List.find?_cons, List.find?_append, q, CIM_NS, RDF_NS, VER_NS]

theorem attachLink_measurements (b : Builder) (mn : Val) (c : Bool) (mrid tn : String) :
    (b.attachLink mn c mrid tn).measurements = b.measurements := by
  unfold Builder.attachLink
  split <;> (try split) <;> (try split) <;> rfl

theorem attachLink_remote_units (b : Builder) (mn : Val) (c : Bool) (mrid tn : String) :
    (b.attachLink mn c mrid tn).remote_units = b.remote_units := by
  unfold Builder.attachLink
  split <;> (try split) <;> (try split) <;> rfl

/-- A control point never contributes a RemoteSource. -/
theorem attachLink_ctl_sources (b : Builder) (mn : Val) (mrid tn : String) :
    (b.attachLink mn true mrid tn).remote_sources = b.remote_sources := by
  unfold Builder.attachLink
  split <;> (try split) <;> rfl

/-- When the RemoteUnit resolves to a truthy mRID, a control point
contributes exactly one RemoteControl element. -/
theorem attachLink_ctl_controls (b : Builder) (mn : Val) (mrid tn : String)
    (h : truthy (b.resolveRtuMrid mn) = true) :
    ∃ rc, (b.attachLink mn true mrid tn).remote_controls = b.remote_controls ++ [rc]
      ∧ rc.tag = q CIM_NS "RemoteControl" := by
  unfold Builder.attachLink
  cases hr : b.resolveRtuMrid mn with
  | none => rw [hr] at h; cases h
  | some r =>
    rw [hr] at h
    have hne : ¬(r = "") := by simpa [truthy] using h
    simp only [if_neg hne]
    exact ⟨_, rfl, rfl⟩

/-- C4: `"MV"` yields an Analog element with measurementType `"AI"`, `"SPS"`
a Discrete with `"BI"`, `"BCR"` an Accumulator with `"CT"`, and every code in
`_CONTROL_TYPES` a Control element with no measurementType child; the
element is appended to the measurement collection, and a control point is
linked — when a remote unit resolves — through a RemoteControl element and
never through a RemoteSource. -/
theorem C4_class_mapping (b : Builder) (pt : Rec) (tn : String)
    (hname : Rec.getV pt "name" (some "") = some tn) (hne : tn ≠ "") :
    ((Rec.getV pt "type" (some "") = some "MV" →
        (pointElem b pt tn).tag = q CIM_NS "Analog"
        ∧ childText (pointElem b pt tn) (q CIM_NS "Measurement.measurementType")
            = some "AI")
    ∧ (Rec.getV pt "type" (some "") = some "SPS" →
        (pointElem b pt tn).tag = q CIM_NS "Discrete"
        ∧ childText (pointElem b pt tn) (q CIM_NS "Measurement.measurementType")
            = some "BI")
    ∧ (Rec.getV pt "type" (some "") = some "BCR" →
        (pointElem b pt tn).tag = q CIM_NS "Accumulator"
        ∧ childText (pointElem b pt tn) (q CIM_NS "Measurement.measurementType")
            = some "CT")
    ∧ (∀ c ∈ CONTROL_TYPES, Rec.getV pt "type" (some "") = some c →
        (pointElem b pt tn).tag = q CIM_NS "Control"
        ∧ (pointElem b pt tn).findChild (q CIM_NS "Measurement.measurementType")
            = none))
    ∧ (b.add_points [pt]).measurements = b.measurements ++ [pointElem b pt tn]
    ∧ (isControlType (Rec.getV pt "type" (some "")) = true →
        (b.add_points [pt]).remote_sources = b.remote_sources
        ∧ (truthy (b.resolveRtuMrid (Rec.getV pt "map_name" (some ""))) = true →
            ∃ rc, (b.add_points [pt]).remote_controls = b.remote_controls ++ [rc]
              ∧ rc.tag = q CIM_NS "RemoteControl")) := by
  have hstep : b.add_points [pt] = b.addNamedPoint pt tn := by
    show b.addPoint pt = _
    unfold Builder.addPoint
    rw [hname]
    simp [hne]
  refine ⟨⟨?_, ?_, ?_, ?_⟩, ?_, ?_⟩
  · intro hty
    constructor
    · rw [pointElem_tag, hty]; rfl
    · rw [pointElem_mt b pt tn (by rw [hty]; rfl), hty]; rfl
  · intro hty
    constructor
    · rw [pointElem_tag, hty]; rfl
    · rw [pointElem_mt b pt tn (by rw [hty]; rfl), hty]; rfl
  · intro hty
    constructor
    · rw [pointElem_tag, hty]; rfl
    · rw [pointElem_mt b pt tn (by rw [hty]; rfl), hty]; rfl
  · intro c hc hty
    have hic : isControlType (Rec.getV pt "type" (some "")) = true := by
      rw [hty]
      simp [isControlType, hc]
    constructor
    · rw [pointElem_tag]
      unfold pointClassAndStats
      rw [hic]
      rfl
    · exact pointElem_mt_none b pt tn hic
  · rw [hstep]
    unfold Builder.addNamedPoint
    rw [attachLink_measurements]
  · intro hic
    rw [hstep]
    unfold Builder.addNamedPoint
    simp only [hic]
    constructor
    · rw [attachLink_ctl_sources]
    · intro hres
      exact attachLink_ctl_controls _ _ _ _ hres

/-- A concrete builder with one remote unit (used by the C4 witness). -/
def c4b : Builder :=
  ((SCProfileBuilder.init "S" none none none []).add_devices
    [[("map_name", some "M")]]).toOption.getD (SCProfileBuilder.init "S" none none none [])

/-- A concrete control point record (used by the C4 witness). -/
def c4pt : Rec := [("name", some "P"), ("type", some "SPC"), ("map_name", some "M")]

/-- Witness for `C4_class_mapping`: a concrete `SPC` point on a one-device
builder yields a Control element without measurementType, and a
RemoteControl link. -/
theorem C4_class_mapping_witness :
    (Rec.getV c4pt "name" (some "") = some "P")
    ∧ ((pointElem c4b c4pt "P").tag = q CIM_NS "Control"
      ∧ (pointElem c4b c4pt "P").findChild (q CIM_NS "Measurement.measurementType")
          = none)
    ∧ (c4b.add_points [c4pt]).remote_sources = c4b.remote_sources
    ∧ (∃ rc, (c4b.add_points [c4pt]).remote_controls = c4b.remote_controls ++ [rc]
        ∧ rc.tag = q CIM_NS "RemoteControl") := by
  have h := C4_class_mapping c4b c4pt "P" rfl (by decide)
  have hctl := h.2.2 rfl
  exact ⟨rfl, h.1.2.2.2 "SPC" (by decide) rfl, hctl.1, hctl.2 rfl⟩

/-! ## C3: when is a link emitted -/

/-- A builder holding two RemoteUnits, one stored under the empty-string key
(reachable through `add_devices` with `{"map_name": ""}`). -/
def c3b : Builder :=
  ((SCProfileBuilder.init "S" none none none []).add_devices
    [[("map_name", some "")], [("map_name", some "A")]]).toOption.getD
    (SCProfileBuilder.init "S" none none none [])

/-- C3 counterexample: the point's map name `""` *is* a key of the stored
RemoteUnit dict, yet with two units present no link is emitted (the code
requires a *truthy* map name before the key lookup), while the measurement
itself is emitted. -/
theorem C3_counterexample :
    ((SCProfileBuilder.init "S" none none none []).add_devices
        [[("map_name", some "")], [("map_name", some "A")]] = .ok c3b)
    ∧ Rec.getV [("name", some "P")] "map_name" (some "") = some ""
    ∧ dictHas c3b.remote_units (some "") = true
    ∧ c3b.remote_units.length = 2
    ∧ (c3b.add_points [[("name", some "P")]]).remote_sources = []
    ∧ (c3b.add_points [[("name", some "P")]]).remote_controls = []
    ∧ (c3b.add_points [[("name", some "P")]]).measurements.length = 1 :=
  ⟨rfl, rfl, rfl, rfl, rfl, rfl, rfl⟩

/-- Processing a single named point is one pass of the loop body. -/
theorem add_points_single (b : Builder) (pt : Rec) (tn : String)
    (hname : Rec.getV pt "name" (some "") = some tn) (hne : tn ≠ "") :
    b.add_points [pt] = b.addNamedPoint pt tn := by
  show b.addPoint pt = _
  unfold Builder.addPoint
  rw [hname]
  simp [hne]

/-- Embeds `_resolve_rtu_mrid` only reads the remote-unit dict. -/
theorem resolveRtuMrid_congr (b b' : Builder) (mn : Val)
    (h : b'.remote_units = b.remote_units) :
    b'.resolveRtuMrid mn = b.resolveRtuMrid mn := by
  unfold Builder.resolveRtuMrid
  rw [h]

/-- When every stored RemoteUnit element carries a truthy `rdf:ID`, the
resolved mRID is truthy exactly when the map name is truthy and a key, or
exactly one unit is stored. -/
theorem truthy_resolveRtuMrid (b : Builder) (mn : Val)
    (hids : ∀ p ∈ b.remote_units, truthy (p.2.attr (q RDF_NS "ID")) = true) :
    (truthy (b.resolveRtuMrid mn) = true
      ↔ ((truthy mn = true ∧ dictHas b.remote_units mn = true)
          ∨ b.remote_units.length = 1)) := by
  unfold Builder.resolveRtuMrid
  by_cases h1 : truthy mn = true ∧ dictHas b.remote_units mn = true
  · rw [if_pos h1]
    cases hf : b.remote_units.find? (fun p => p.1 = mn) with
    | none =>
      exfalso
      have h2 := h1.2
      rw [dictHas, hf] at h2
      cases h2
    | some p =>
      have hid := hids p (List.mem_of_find?_eq_some hf)
      simp [dictGet?, hf, hid, h1]
  · rw [if_neg h1]
    by_cases h2 : b.remote_units.length = 1
    · rw [if_pos h2]
      cases hl : b.remote_units with
      | nil => rw [hl] at h2; cases h2
      | cons p rest =>
        have hid := hids p (by rw [hl]; exact List.mem_cons_self p rest)
        have hrest : rest = [] := by
          rw [hl] at h2
          simpa using h2
        simp [hl, hid, hrest]
    · rw [if_neg h2]
      constructor
      · intro h
        simp [truthy] at h
      · intro hr
        rcases hr with h | h
        · exact absurd h h1
        · exact absurd h h2

/-- With a single stored unit, resolution returns that unit's `rdf:ID`
whatever the map name. -/
theorem resolveRtuMrid_single (b : Builder) (mn : Val) (k : Val) (u : Xml)
    (h : b.remote_units = [(k, u)]) :
    b.resolveRtuMrid mn = u.attr (q RDF_NS "ID") := by
  unfold Builder.resolveRtuMrid
  rw [h]
  by_cases h1 : truthy mn = true ∧ dictHas [(k, u)] mn = true
  · rw [if_pos h1]
    obtain ⟨_, h2⟩ := h1
    cases hf : List.find? (fun p => p.1 = mn) [(k, u)] with
    | none => rw [dictHas, hf] at h2; cases h2
    | some p =>
      have hp : p = (k, u) := by
        have := List.mem_of_find?_eq_some hf
        simpa using this
      subst hp
      simp [dictGet?, hf]
  · rw [if_neg h1]
    simp

/-- The loop body appends the measurement element and nothing else to the
measurement collection. -/
theorem addNamedPoint_measurements (b : Builder) (pt : Rec) (tn : String) :
    (b.addNamedPoint pt tn).measurements = b.measurements ++ [pointElem b pt tn] := by
  unfold Builder.addNamedPoint
  rw [attachLink_measurements]

/-- Link-count bookkeeping of the link block: exactly one of
RemoteSource/RemoteControl is appended when the resolved mRID is truthy,
nothing otherwise. -/
theorem attachLink_links_length (b : Builder) (mn : Val) (c : Bool) (mrid tn : String) :
    (b.attachLink mn c mrid tn).remote_sources.length
      + (b.attachLink mn c mrid tn).remote_controls.length
      = b.remote_sources.length + b.remote_controls.length
        + (if truthy (b.resolveRtuMrid mn) then 1 else 0) := by
  unfold Builder.attachLink
  cases hr : b.resolveRtuMrid mn with
  | none => simp [truthy]
  | some r =>
    by_cases hne : r = ""
    · subst hne; simp [truthy]
    · by_cases hc : c = true <;> simp [truthy, hne, hc] <;> omega

/-- Link-count bookkeeping of the whole loop body. -/
theorem addNamedPoint_links_length (b : Builder) (pt : Rec) (tn : String) :
    (b.addNamedPoint pt tn).remote_sources.length
      + (b.addNamedPoint pt tn).remote_controls.length
      = b.remote_sources.length + b.remote_controls.length
        + (if truthy (b.resolveRtuMrid (pt.getV "map_name" (some ""))) then 1
           else 0) := by
  unfold Builder.addNamedPoint
  rw [attachLink_links_length]
  rfl

/-- C3 amended: for a named point, a RemoteSource/RemoteControl link is
emitted iff the point's map name is truthy (non-empty) *and* a key of the
remote-unit dict, or exactly one remote unit is stored (assuming, as holds
for every unit the builder itself stores, that stored elements carry truthy
`rdf:ID`s); the measurement element is emitted regardless; and with exactly
one stored unit the resolved link target is that unit's identifier. -/
theorem C3_amended_link_iff (b : Builder) (pt : Rec) (tn : String)
    (hname : Rec.getV pt "name" (some "") = some tn) (hne : tn ≠ "")
    (hids : ∀ p ∈ b.remote_units, truthy (p.2.attr (q RDF_NS "ID")) = true) :
    ((b.add_points [pt]).remote_sources.length
        + (b.add_points [pt]).remote_controls.length
      = b.remote_sources.length + b.remote_controls.length + 1
      ↔ ((truthy (Rec.getV pt "map_name" (some "")) = true
          ∧ dictHas b.remote_units (Rec.getV pt "map_name" (some "")) = true)
        ∨ b.remote_units.length = 1))
    ∧ (b.add_points [pt]).measurements.length = b.measurements.length + 1
    ∧ (∀ k u, b.remote_units = [(k, u)] →
        b.resolveRtuMrid (Rec.getV pt "map_name" (some ""))
          = u.attr (q RDF_NS "ID")) := by
  rw [add_points_single b pt tn hname hne]
  refine ⟨?_, ?_, ?_⟩
  · rw [addNamedPoint_links_length]
    rw [← truthy_resolveRtuMrid b (Rec.getV pt "map_name" (some "")) hids]
    by_cases ht : truthy (b.resolveRtuMrid (Rec.getV pt "map_name" (some ""))) = true
    · simp [ht]
    · simp [ht]
  · rw [addNamedPoint_measurements]
    simp
  · intro k u h
    exact resolveRtuMrid_single b _ k u h

/-- A builder with exactly one RemoteUnit (used by the C3 witness). -/
def c3wb : Builder :=
  ((SCProfileBuilder.init "S" none none none []).add_devices
    [[("map_name", some "M")]]).toOption.getD (SCProfileBuilder.init "S" none none none [])

/-- A point whose map name does not match the sole device. -/
def c3wpt : Rec := [("name", some "P"), ("map_name", some "X")]

/-- Witness for `C3_amended_link_iff`: with one device and a non-matching
map name, the default-link fallback still emits exactly one link. -/
theorem C3_amended_link_iff_witness :
    (c3wb.add_points [c3wpt]).remote_sources.length
        + (c3wb.add_points [c3wpt]).remote_controls.length
      = c3wb.remote_sources.length + c3wb.remote_controls.length + 1 :=
  ((C3_amended_link_iff c3wb c3wpt "P" rfl (by decide) (by decide)).1).mpr
    (Or.inr (by decide))

/-! ## Dict lemmas shared by C9 and C10 -/

theorem dictGet?_dictSet_ne {α β : Type} [DecidableEq α] (d : List (α × β))
    (kNew k : α) (v : β) (h : kNew ≠ k) :
    dictGet? (dictSet d kNew v) k = dictGet? d k := by
  induction d with
  | nil => simp [dictSet, dictGet?, h]
  | cons p rest ih =>
    obtain ⟨k1, v1⟩ := p
    by_cases h1 : k1 = kNew
    · subst h1
      simp [dictSet, dictGet?, List.find?_cons, h]
    · by_cases h2 : k1 = k
      · subst h2
        simp [dictSet, h1, dictGet?, List.find?_cons]
      · simpa [dictSet, h1, dictGet?, List.find?_cons, h2] using ih

theorem keys_dictSet {α β : Type} [DecidableEq α] (d : List (α × β)) (k a : α) (v : β) :
    a ∈ (dictSet d k v).map Prod.fst ↔ a = k ∨ a ∈ d.map Prod.fst := by
  induction d with
  | nil => simp [dictSet]
  | cons p rest ih =>
    obtain ⟨k1, v1⟩ := p
    by_cases h1 : k1 = k
    · subst h1
      simp [dictSet]
      try tauto
    · simp [dictSet, h1, ih]
      try tauto

theorem keys_nodup_dictSet {α β : Type} [DecidableEq α] (d : List (α × β)) (k : α)
    (v : β) (h : (d.map Prod.fst).Nodup) : ((dictSet d k v).map Prod.fst).Nodup := by
  induction d with
  | nil => simp [dictSet]
  | cons p rest ih =>
    obtain ⟨k1, v1⟩ := p
    by_cases h1 : k1 = k
    · subst h1
      simpa [dictSet] using h
    · simp only [dictSet, if_neg h1, List.map_cons, List.nodup_cons] at h ⊢
      refine ⟨fun hmem => ?_, ih h.2⟩
      rcases (keys_dictSet rest k k1 v).mp hmem with h2 | h2
      · exact h1 h2
      · exact h.1 h2

theorem mem_dictSet {α β : Type} [DecidableEq α] (d : List (α × β)) (k : α) (v : β)
    (p : α × β) (hp : p ∈ dictSet d k v) : p = (k, v) ∨ p ∈ d := by
  induction d with
  | nil => simpa [dictSet] using hp
  | cons x rest ih =>
    obtain ⟨k1, v1⟩ := x
    by_cases h1 : k1 = k
    · subst h1
      rcases (by simpa [dictSet] using hp : p = (k1, v) ∨ p ∈ rest) with h | h
      · exact Or.inl h
      · exact Or.inr (List.mem_cons_of_mem _ h)
    · rcases (by simpa [dictSet, h1] using hp : p = (k1, v1) ∨ p ∈ dictSet rest k v)
        with h | h
      · exact Or.inr (by simp [h])
      · rcases ih h with h2 | h2
        · exact Or.inl h2
        · exact Or.inr (List.mem_cons_of_mem _ h2)

/-! ## C9: the central node's private key -/

/-- The central node overwritten: builder after `set_rtu_identity("A")` and a
device whose map name is literally `"__rtac__A"`. -/
def c9b : Builder :=
  (((SCProfileBuilder.init "S" none none none []).set_rtu_identity "A").add_devices
    [[("map_name", some "__rtac__A")]]).toOption.getD
    (SCProfileBuilder.init "S" none none none [])

/-- C9 counterexample: a device whose map name is the string `"__rtac__A"`
collides with the central node's key — only one entry remains, it is the
device's element (role `"device"`, not the central `"rtu"`), while the
counter reports two remote units. -/
theorem C9_counterexample :
    (((SCProfileBuilder.init "S" none none none []).set_rtu_identity "A").add_devices
        [[("map_name", some "__rtac__A")]] = .ok c9b)
    ∧ deviceKey [("map_name", some "__rtac__A")] = some ("__rtac__" ++ "A")
    ∧ c9b.remote_units.length = 1
    ∧ c9b.stats.remote_units = 2
    ∧ ((dictGet? c9b.remote_units (some "__rtac__A")).bind
        (fun e => childText e (q VER_NS "RemoteUnit.role"))) = some "device" :=
  ⟨rfl, rfl, rfl, rfl, rfl⟩

theorem add_devices_preserves_key (devs : List Rec) (b0 b : Builder) (k : Val)
    (h : b0.add_devices devs = .ok b) (hk : ∀ dev ∈ devs, deviceKey dev ≠ k) :
    dictGet? b.remote_units k = dictGet? b0.remote_units k := by
  induction devs generalizing b0 with
  | nil =>
    simp only [Builder.add_devices, List.foldlM] at h
    cases h
    rfl
  | cons dev rest ih =>
    rw [add_devices_cons] at h
    cases hb : buildRtuElem b0.substation_name dev with
    | error e => rw [hb] at h; simp [Except.bind] at h
    | ok rtu =>
      rw [hb] at h
      simp only [Except.bind] at h
      rw [ih _ h (fun d hd => hk d (List.mem_cons_of_mem _ hd))]
      exact dictGet?_dictSet_ne _ _ _ _ (hk dev (List.mem_cons_self _ _))

theorem add_devices_keys_nodup (devs : List Rec) (b0 b : Builder)
    (h : b0.add_devices devs = .ok b) (h0 : (b0.remote_units.map Prod.fst).Nodup) :
    (b.remote_units.map Prod.fst).Nodup := by
  induction devs generalizing b0 with
  | nil =>
    simp only [Builder.add_devices, List.foldlM] at h
    cases h
    exact h0
  | cons dev rest ih =>
    rw [add_devices_cons] at h
    cases hb : buildRtuElem b0.substation_name dev with
    | error e => rw [hb] at h; simp [Except.bind] at h
    | ok rtu =>
      rw [hb] at h
      simp only [Except.bind] at h
      exact ih _ h (keys_nodup_dictSet _ _ _ h0)

/-- C9 amended: remote-unit keys stay pairwise distinct, and the central
node stored by `set_rtu_identity` survives `add_devices` untouched provided
no device's effective map-name equals the private string
`"__rtac__" ++ name` — the privacy of the key is only by that naming
convention, not guaranteed against colliding map names. -/
theorem C9_amended_private_key (sub rtuName : String)
    (eqU peU mdesc : Option String) (emap : List (String × String))
    (devs : List Rec) (b : Builder)
    (h : ((SCProfileBuilder.init sub eqU peU mdesc emap).set_rtu_identity
        rtuName).add_devices devs = .ok b)
    (hk : ∀ dev ∈ devs, deviceKey dev ≠ some ("__rtac__" ++ rtuName)) :
    (b.remote_units.map Prod.fst).Nodup
    ∧ dictGet? b.remote_units (some ("__rtac__" ++ rtuName))
        = dictGet? ((SCProfileBuilder.init sub eqU peU mdesc emap).set_rtu_identity
            rtuName).remote_units (some ("__rtac__" ++ rtuName))
    ∧ (dictGet? b.remote_units (some ("__rtac__" ++ rtuName))).isSome = true := by
  have h0 : ((((SCProfileBuilder.init sub eqU peU mdesc emap).set_rtu_identity
      rtuName)).remote_units.map Prod.fst).Nodup := by
    simp [SCProfileBuilder.init, Builder.set_rtu_identity, dictSet]
  refine ⟨add_devices_keys_nodup devs _ b h h0,
    add_devices_preserves_key devs _ b _ h hk, ?_⟩
  rw [add_devices_preserves_key devs _ b _ h hk]
  simp [SCProfileBuilder.init, Builder.set_rtu_identity, dictSet, dictGet?]

/-- Builder after `set_rtu_identity("A")` plus one ordinary device. -/
def c9wb : Builder :=
  (((SCProfileBuilder.init "S" none none none []).set_rtu_identity "A").add_devices
    [[("map_name", some "M")]]).toOption.getD
    (SCProfileBuilder.init "S" none none none [])

/-- Witness for `C9_amended_private_key` at a concrete device list. -/
theorem C9_amended_private_key_witness :
    (c9wb.remote_units.map Prod.fst).Nodup
    ∧ (dictGet? c9wb.remote_units (some ("__rtac__" ++ "A"))).isSome = true := by
  have h := C9_amended_private_key "S" "A" none none none []
    [[("map_name", some "M")]] c9wb rfl (by decide)
  exact ⟨h.1, h.2.2⟩

/-! ## C10: duplicate map names -/

theorem buildRtuElem_tag (sub : String) (dev : Rec) (e : Xml)
    (h : buildRtuElem sub dev = .ok e) : e.tag = q CIM_NS "RemoteUnit" := by
  unfold buildRtuElem at h
  dsimp only at h
  cases hm : makeMridV "rtu" [some sub, deviceKey dev] with
  | error er => rw [hm] at h; simp [bind, Except.bind] at h
  | ok m =>
    rw [hm] at h
    simp only [bind, Except.bind, pure, Except.pure, Except.ok.injEq] at h
    rw [← h]
    rfl

theorem add_devices_count (devs : List Rec) (b0 b : Builder)
    (h : b0.add_devices devs = .ok b) :
    b.stats.remote_units = b0.stats.remote_units + devs.length := by
  induction devs generalizing b0 with
  | nil =>
    simp only [Builder.add_devices, List.foldlM] at h
    cases h
    simp
  | cons dev rest ih =>
    rw [add_devices_cons] at h
    cases hb : buildRtuElem b0.substation_name dev with
    | error e => rw [hb] at h; simp [Except.bind] at h
    | ok rtu =>
      rw [hb] at h
      simp only [Except.bind] at h
      rw [ih _ h]
      simp
      omega

/-- Embeds `add_devices` only ever touches the remote-unit dict and its counter;
every element it stores is a `cim:RemoteUnit`. -/
theorem add_devices_shape (devs : List Rec) (b0 b : Builder)
    (h : b0.add_devices devs = .ok b) :
    b.measurements = b0.measurements ∧ b.remote_sources = b0.remote_sources
    ∧ b.remote_controls = b0.remote_controls ∧ b.comm_links = b0.comm_links
    ∧ b.dataflows = b0.dataflows
    ∧ (∀ p ∈ b.remote_units, p ∈ b0.remote_units ∨ p.2.tag = q CIM_NS "RemoteUnit") := by
  induction devs generalizing b0 with
  | nil =>
    simp only [Builder.add_devices, List.foldlM] at h
    cases h
    exact ⟨rfl, rfl, rfl, rfl, rfl, fun p hp => Or.inl hp⟩
  | cons dev rest ih =>
    rw [add_devices_cons] at h
    cases hb : buildRtuElem b0.substation_name dev with
    | error e => rw [hb] at h; simp [Except.bind] at h
    | ok rtu =>
      rw [hb] at h
      simp only [Except.bind] at h
      obtain ⟨h1, h2, h3, h4, h5, h6⟩ := ih _ h
      refine ⟨h1, h2, h3, h4, h5, fun p hp => ?_⟩
      rcases h6 p hp with hmem | htag
      · rcases mem_dictSet _ _ _ _ hmem with hpe | hpd
        · subst hpe
          exact Or.inr (buildRtuElem_tag _ dev rtu hb)
        · exact Or.inl hpd
      · exact Or.inr htag

/-- With empty measurement/link collections and only `cim:RemoteUnit`
elements stored, the serialized document has exactly one RemoteUnit root
child per stored dict entry. -/
theorem countTag_serializeRoot_ru (b : Builder) (ts : String)
    (hm : b.measurements = []) (hs : b.remote_sources = [])
    (hc : b.remote_controls = []) (hcl : b.comm_links = []) (hd : b.dataflows = [])
    (hru : ∀ p ∈ b.remote_units, p.2.tag = q CIM_NS "RemoteUnit") :
    countTag (b.serializeRoot ts) (q CIM_NS "RemoteUnit") = b.remote_units.length := by
  unfold Builder.serializeRoot countTag
  have hflt : List.filter (fun c => c.tag = q CIM_NS "RemoteUnit")
      (b.remote_units.map (fun p => p.2)) = b.remote_units.map (fun p => p.2) := by
    rw [List.filter_eq_self]
    intro a ha
    obtain ⟨p, hp, hpe⟩ := List.mem_map.mp ha
    rw [← hpe]
    simp [hru p hp]
  rw [hm, hs, hc, hcl, hd]
  simp only [Xml.children, List.append_nil, List.filter_cons]
  rw [if_neg (by simp [Xml.tag, q, MD_NS, CIM_NS])]
  rw [hflt, List.length_map]

/-- C10: (a) on a fresh builder, `add_devices` bumps the remote-unit counter
once per input record while the serialized document contains one RemoteUnit
element per *stored dict entry*; (b) two records sharing an effective map
name leave a single dict entry — the element built from the *last* record —
so the serialized document holds one RemoteUnit while `stats["remote_units"]`
reports two. -/
theorem C10_duplicate_map_names :
    (∀ (sub : String) (eqU peU mdesc : Option String) (emap : List (String × String))
        (devs : List Rec) (b : Builder) (ts : String),
      (SCProfileBuilder.init sub eqU peU mdesc emap).add_devices devs = .ok b →
      b.stats.remote_units = devs.length
      ∧ countTag (b.serializeRoot ts) (q CIM_NS "RemoteUnit") = b.remote_units.length)
    ∧ (∀ (sub : String) (eqU peU mdesc : Option String) (emap : List (String × String))
        (d1 d2 : Rec) (b : Builder),
      deviceKey d1 = deviceKey d2 →
      (SCProfileBuilder.init sub eqU peU mdesc emap).add_devices [d1, d2] = .ok b →
      b.stats.remote_units = 2 ∧ b.remote_units.length = 1
      ∧ ∃ e2, buildRtuElem sub d2 = .ok e2 ∧ b.remote_units = [(deviceKey d2, e2)]) := by
  constructor
  · intro sub eqU peU mdesc emap devs b ts h
    constructor
    · have hcount := add_devices_count devs _ b h
      simpa [SCProfileBuilder.init, Stats.zero] using hcount
    · obtain ⟨h1, h2, h3, h4, h5, h6⟩ := add_devices_shape devs _ b h
      apply countTag_serializeRoot_ru b ts
      · simpa [SCProfileBuilder.init] using h1
      · simpa [SCProfileBuilder.init] using h2
      · simpa [SCProfileBuilder.init] using h3
      · simpa [SCProfileBuilder.init] using h4
      · simpa [SCProfileBuilder.init] using h5
      · intro p hp
        rcases h6 p hp with hmem | htag
        · simp [SCProfileBuilder.init] at hmem
        · exact htag
  · intro sub eqU peU mdesc emap d1 d2 b hk h
    rw [add_devices_cons] at h
    cases hb1 : buildRtuElem
        (SCProfileBuilder.init sub eqU peU mdesc emap).substation_name d1 with
    | error e => rw [hb1] at h; simp [Except.bind] at h
    | ok e1 =>
      rw [hb1] at h
      simp only [Except.bind] at h
      rw [add_devices_cons] at h
      cases hb2 : buildRtuElem sub d2 with
      | error e => rw [show ((SCProfileBuilder.init sub eqU peU mdesc emap :
            Builder).substation_name) = sub from rfl, hb2] at h
                   simp [Except.bind] at h
      | ok e2 =>
        rw [show ((SCProfileBuilder.init sub eqU peU mdesc emap :
            Builder).substation_name) = sub from rfl, hb2] at h
        simp only [Except.bind] at h
        simp only [Builder.add_devices, List.foldlM, pure] at h
        cases h
        refine ⟨rfl, ?_, e2, rfl, ?_⟩
        · simp [SCProfileBuilder.init, dictSet, hk]
        · simp [SCProfileBuilder.init, dictSet, hk]

/-- Two concrete devices sharing the map name `"M"`. -/
def c10d1 : Rec := [("name", some "DevOne"), ("map_name", some "M")]

/-- The second device with the same map name. -/
def c10d2 : Rec := [("name", some "DevTwo"), ("map_name", some "M")]

/-- The builder after adding both duplicate-keyed devices. -/
def c10b : Builder :=
  ((SCProfileBuilder.init "S" none none none []).add_devices [c10d1, c10d2]).toOption.getD
    (SCProfileBuilder.init "S" none none none [])

/-- Witness for `C10_duplicate_map_names`: two same-key devices leave one
serialized RemoteUnit but a counter of two. -/
theorem C10_duplicate_map_names_witness :
    (c10b.stats.remote_units = [c10d1, c10d2].length
      ∧ countTag (c10b.serializeRoot "TS") (q CIM_NS "RemoteUnit")
          = c10b.remote_units.length)
    ∧ (c10b.stats.remote_units = 2 ∧ c10b.remote_units.length = 1
      ∧ ∃ e2, buildRtuElem "S" c10d2 = .ok e2
          ∧ c10b.remote_units = [(deviceKey c10d2, e2)]) :=
  ⟨C10_duplicate_map_names.1 "S" none none none [] [c10d1, c10d2] c10b "TS" rfl,
   C10_duplicate_map_names.2 "S" none none none [] c10d1 c10d2 c10b rfl rfl⟩

end ScadaStudio
